import Mathlib

/-
Verification of the two-stream memory-layout benchmark
(`two_stream_ver01.py`): dataset generation (`gen_ds`), the `Unified`
and `Split` store layouts, and the latency-benchmark loop (`run`).

Modelling conventions:
- Python `dict` built by a comprehension over the dataset is modelled as
  an association list in insertion order; lookup takes the value of the
  last entry with the queried key (later entries overwrite earlier ones,
  as in Python).  A missing key is a `KeyError`.
- `random.Random` is modelled as a pure stream of raw draws
  `Rng := Nat → Nat`; `rng.randint(0, grid)` at stream position `i` is
  `r i % (grid + 1)`.  A seed determines the stream.
- The rejection-sampling loop in `gen_ds` is given explicit fuel; a run
  of the Python program corresponds to a fuel large enough for every
  pick to succeed, and `gen_ds` returns `none` when fuel is exhausted.
- Wall-clock time cannot be computed, so the per-query elapsed
  nanoseconds measured by `time.perf_counter_ns` are an oracle
  `elapsed : Nat → Nat`, and `rng.random()` / `rng.choice` draws inside
  `run` are oracle streams indexed by the iteration counter.
- Fallible Python operations return `Except PyErr`.
-/

/-- The Python exceptions the modelled code can raise. -/
inductive PyErr where
  | keyError
  | indexError
  | zeroDivisionError
deriving DecidableEq

/-- A grid coordinate `(x, y)`; Python ints are modelled as `Int`. -/
abbrev Coord := Int × Int

/-- One dataset record `(object_id, c, feature_string)` produced by `gen_ds`. -/
structure Rec where
  oid : Int
  c : Coord
  f : String
deriving DecidableEq

/-- Raw draw stream of a seeded `random.Random` object. -/
abbrev Rng := Nat → Nat

/-- Lookup in a Python dict built by inserting the pairs of `ps` in
order: the last entry with key `k` wins, `none` models `KeyError`. -/
def dictGet {α β : Type} [DecidableEq α] : List (α × β) → α → Option β
  | [], _ => none
  | p :: ps, k =>
    match dictGet ps k with
    | some v => some v
    | none => if p.1 = k then some p.2 else none

/-- Number of keys of the dict built from `ps`, i.e. Python `len`. -/
def dictLen {α β : Type} [DecidableEq α] (ps : List (α × β)) : Nat :=
  ((ps.map Prod.fst).dedup).length

/-- `FEATURE_PAD: int = 128`. -/
def FEATURE_PAD : Nat := 128

/-- The feature string of `gen_ds`:
`f"obj{object_id:07d}".ljust(FEATURE_PAD, "X")`. -/
def label (object_id : Nat) : String :=
  let digits := toString object_id
  let core := "obj" ++ String.mk (List.replicate (7 - digits.length) '0') ++ digits
  core ++ String.mk (List.replicate (FEATURE_PAD - core.length) 'X')

/-- `rng.randint(0, grid)` read from stream position `i`. -/
def randint (r : Rng) (i : Nat) (grid : Nat) : Int :=
  Int.ofNat (r i % (grid + 1))

/-- `c = (rng.randint(0, grid), rng.randint(0, grid))`: one rejection-sampling
attempt consumes stream positions `i` and `i + 1`. -/
def drawCoord (r : Rng) (i : Nat) (grid : Nat) : Coord :=
  (randint r i grid, randint r (i + 1) grid)

/-- The `while True` rejection loop of `gen_ds`: draw coordinates until one
not in `used` is found; returns the fresh coordinate and the next stream
position, or `none` when the fuel runs out. -/
def pickCoord (r : Rng) (grid : Nat) (used : List Coord) : Nat → Nat → Option (Coord × Nat)
  | 0, _ => none
  | fuel + 1, i =>
    let c := drawCoord r i grid
    if c ∈ used then pickCoord r grid used fuel (i + 2) else some (c, i + 2)

/-- The `for object_id in range(n)` loop of `gen_ds`, building the record
list in order; `remaining` counts the ids still to emit. -/
def genDsGo (r : Rng) (grid fuel : Nat) : Nat → Nat → Nat → List Coord → Option (List Rec)
  | 0, _, _, _ => some []
  | remaining + 1, object_id, i, used =>
    match pickCoord r grid used fuel i with
    | none => none
    | some (c, i2) =>
      match genDsGo r grid fuel remaining (object_id + 1) i2 (c :: used) with
      | none => none
      | some rest => some (⟨Int.ofNat object_id, c, label object_id⟩ :: rest)

/-- `gen_ds(n, grid, rng=...)`: n records with rejection-sampled unique
coordinates; `fuel` bounds each rejection loop. -/
def gen_ds (n grid : Nat) (r : Rng) (fuel : Nat) : Option (List Rec) :=
  genDsGo r grid fuel n 0 0 []

/-- `class Unified`: `self.id_map` and `self.coord_map`. -/
structure Unified where
  id_map : List (Int × (Coord × String))
  coord_map : List (Coord × (Int × String))

/-- `Unified.__init__`: both dicts are comprehensions over `ds`. -/
def Unified.ofDs (ds : List Rec) : Unified where
  id_map := ds.map (fun q => (q.oid, (q.c, q.f)))
  coord_map := ds.map (fun q => (q.c, (q.oid, q.f)))

/-- `Unified.oid_to_coord`: `return self.id_map[oid][0]`. -/
def Unified.oid_to_coord (u : Unified) (oid : Int) : Except PyErr Coord :=
  match dictGet u.id_map oid with
  | some cf => .ok cf.1
  | none => .error .keyError

/-- `Unified.coord_to_oid`: `return self.coord_map[coord][0]`. -/
def Unified.coord_to_oid (u : Unified) (coord : Coord) : Except PyErr Int :=
  match dictGet u.coord_map coord with
  | some of_ => .ok of_.1
  | none => .error .keyError

/-- `Unified.full_lookup`: `return self.id_map[oid]`. -/
def Unified.full_lookup (u : Unified) (oid : Int) : Except PyErr (Coord × String) :=
  match dictGet u.id_map oid with
  | some cf => .ok cf
  | none => .error .keyError

/-- `class Split`: `self.where` (here `where_store`, a Lean keyword clash;
the source docstring notes the original name `where_store`), `self.what`,
`self.idx`. -/
structure Split where
  where_store : List (Int × Coord)
  what : List (Int × String)
  idx : List (Coord × Int)

/-- `Split.__init__`: three dict comprehensions over `ds`. -/
def Split.ofDs (ds : List Rec) : Split where
  where_store := ds.map (fun q => (q.oid, q.c))
  what := ds.map (fun q => (q.oid, q.f))
  idx := ds.map (fun q => (q.c, q.oid))

/-- `Split.oid_to_coord`: `return self.where[oid]`. -/
def Split.oid_to_coord (s : Split) (oid : Int) : Except PyErr Coord :=
  match dictGet s.where_store oid with
  | some c => .ok c
  | none => .error .keyError

/-- `Split.coord_to_oid`: `return self.idx[coord]`. -/
def Split.coord_to_oid (s : Split) (coord : Coord) : Except PyErr Int :=
  match dictGet s.idx coord with
  | some oid => .ok oid
  | none => .error .keyError

/-- `Split.full_lookup`: `c = self.where[oid]; f = self.what[oid];
oid_2 = self.idx[c]; _ = self.what[oid_2]; return c, f`. -/
def Split.full_lookup (s : Split) (oid : Int) : Except PyErr (Coord × String) :=
  match dictGet s.where_store oid with
  | none => .error .keyError
  | some c =>
    match dictGet s.what oid with
    | none => .error .keyError
    | some f =>
      match dictGet s.idx c with
      | none => .error .keyError
      | some oid_2 =>
        match dictGet s.what oid_2 with
        | none => .error .keyError
        | some _ => .ok (c, f)

/-- `Unified.full_lookup` instrumented with the number of underlying dict
accesses performed: the single `self.id_map[oid]` subscript, attempted
whether or not it hits. -/
def Unified.full_lookup_counted (u : Unified) (oid : Int) :
    Except PyErr (Coord × String) × Nat :=
  (u.full_lookup oid, 1)

/-- `Split.full_lookup` instrumented with the number of underlying dict
accesses attempted: `self.where[oid]`, `self.what[oid]`, `self.idx[c]`,
`self.what[oid_2]`; a raising access is still counted. -/
def Split.full_lookup_counted (s : Split) (oid : Int) :
    Except PyErr (Coord × String) × Nat :=
  match dictGet s.where_store oid with
  | none => (.error .keyError, 1)
  | some c =>
    match dictGet s.what oid with
    | none => (.error .keyError, 2)
    | some f =>
      match dictGet s.idx c with
      | none => (.error .keyError, 3)
      | some oid_2 =>
        match dictGet s.what oid_2 with
        | none => (.error .keyError, 4)
        | some _ => (.ok (c, f), 4)

/-- `mem: Union[Unified, Split]` in `run`. -/
inductive Mem where
  | unified (u : Unified)
  | split (s : Split)

/-- `size = len(mem.where) if isinstance(mem, Split) else len(mem.id_map)`. -/
def Mem.size : Mem → Nat
  | .unified u => dictLen u.id_map
  | .split s => dictLen s.where_store

/-- Dispatch of `mem.oid_to_coord`. -/
def Mem.oid_to_coord : Mem → Int → Except PyErr Coord
  | .unified u, oid => u.oid_to_coord oid
  | .split s, oid => s.oid_to_coord oid

/-- Dispatch of `mem.coord_to_oid`. -/
def Mem.coord_to_oid : Mem → Coord → Except PyErr Int
  | .unified u, c => u.coord_to_oid c
  | .split s, c => s.coord_to_oid c

/-- Dispatch of `mem.full_lookup`. -/
def Mem.full_lookup : Mem → Int → Except PyErr (Coord × String)
  | .unified u, oid => u.full_lookup oid
  | .split s, oid => s.full_lookup oid

/-- The query-mix dict `{"w2what": _, "what2w": _, "integrated": _}`. -/
structure Mix where
  w2what : Rat
  what2w : Rat
  integrated : Rat

/-- The three query types of the benchmark loop. -/
inductive QueryKind where
  | locationToId
  | idToLocation
  | combined
deriving DecidableEq

/-- The classification of one iteration of `run` from the uniform draw
`r = rng.random()`: `if r < mix["w2what"]` the query is a `coord_to_oid`
(location-to-id) query, `elif r < mix["w2what"] + mix["what2w"]` an
`oid_to_coord` (id-to-location) query, `else` a `full_lookup` (combined)
query. -/
def queryKind (mix : Mix) (r : Rat) : QueryKind :=
  if r < mix.w2what then .locationToId
  else if r < mix.w2what + mix.what2w then .idToLocation
  else .combined

/-- `rng.choice(l)` with the raw draw `k`: raises `IndexError` on an empty
sequence, otherwise picks an element. -/
def pychoice {α : Type} (l : List α) (k : Nat) : Except PyErr α :=
  match l.get? (k % l.length) with
  | some a => .ok a
  | none => .error .indexError

/-- The list comprehension `[mem.oid_to_coord(i) for i in ids]`: sequential,
the first raised error propagates. -/
def mapExcept {α β : Type} (g : α → Except PyErr β) : List α → Except PyErr (List β)
  | [] => .ok []
  | a :: l =>
    match g a with
    | .error e => .error e
    | .ok b =>
      match mapExcept g l with
      | .error e => .error e
      | .ok bs => .ok (b :: bs)

/-- The `for _ in range(total_queries)` loop of `run`: `q` is the iteration
counter indexing the oracle streams, `rem` the iterations left, `acc` the
accumulated elapsed nanoseconds. -/
def runLoop (mem : Mem) (mix : Mix) (ids : List Int) (coords : List Coord)
    (rfloat : Nat → Rat) (rchoice : Nat → Nat) (elapsed : Nat → Nat) :
    Nat → Nat → Nat → Except PyErr Nat
  | _, 0, acc => .ok acc
  | q, rem + 1, acc =>
    let step : Except PyErr Unit :=
      match queryKind mix (rfloat q) with
      | .locationToId =>
        match pychoice coords (rchoice q) with
        | .error e => .error e
        | .ok c =>
          match mem.coord_to_oid c with
          | .error e => .error e
          | .ok _ => .ok ()
      | .idToLocation =>
        match pychoice ids (rchoice q) with
        | .error e => .error e
        | .ok o =>
          match mem.oid_to_coord o with
          | .error e => .error e
          | .ok _ => .ok ()
      | .combined =>
        match pychoice ids (rchoice q) with
        | .error e => .error e
        | .ok o =>
          match mem.full_lookup o with
          | .error e => .error e
          | .ok _ => .ok ()
    match step with
    | .error e => .error e
    | .ok _ => runLoop mem mix ids coords rfloat rchoice elapsed (q + 1) rem (acc + elapsed q)

/-- `run(mem, total_queries, mix, *, rng)`: precompute `ids` and `coords`,
execute the query loop, and return `acc / total_queries / 1000`; Python
true division by `total_queries == 0` raises `ZeroDivisionError`. -/
def run (mem : Mem) (total_queries : Nat) (mix : Mix)
    (rfloat : Nat → Rat) (rchoice : Nat → Nat) (elapsed : Nat → Nat) :
    Except PyErr Rat :=
  let ids : List Int := (List.range mem.size).map Int.ofNat
  match mapExcept (fun i => mem.oid_to_coord i) ids with
  | .error e => .error e
  | .ok coords =>
    match runLoop mem mix ids coords rfloat rchoice elapsed 0 total_queries 0 with
    | .error e => .error e
    | .ok acc =>
      if total_queries = 0 then .error .zeroDivisionError
      else .ok ((acc : Rat) / (total_queries : Rat) / 1000)

/-- Concrete draw stream for witnesses. -/
def wStream : Rng := fun i => i

/-- A second, definitionally different but pointwise equal draw stream. -/
def wStream2 : Rng := fun i => i + 0

/-- The dataset `gen_ds 3 4 wStream 10` used by the witnesses. -/
def wRows : List Rec :=
  match gen_ds 3 4 wStream 10 with
  | some rows => rows
  | none => []

/-- A key absent from the inserted pairs is a `KeyError`. -/
theorem dictGet_none_of_not_mem {α β : Type} [DecidableEq α]
    {ps : List (α × β)} {k : α} (h : k ∉ ps.map Prod.fst) :
    dictGet ps k = none := by
  induction ps with
  | nil => rfl
  | cons p ps ih =>
    simp only [List.map_cons, List.mem_cons, not_or] at h
    obtain ⟨h1, h2⟩ := h
    simp only [dictGet, ih h2]
    exact if_neg (show ¬ p.1 = k from fun hk => h1 hk.symm)

/-- When the inserted keys are pairwise distinct, lookup of a key returns
the value it was inserted with. -/
theorem dictGet_some_of_nodup {α β : Type} [DecidableEq α]
    {ps : List (α × β)} {k : α} {v : β}
    (hnd : (ps.map Prod.fst).Nodup) (hmem : (k, v) ∈ ps) :
    dictGet ps k = some v := by
  induction ps with
  | nil => cases hmem
  | cons p ps ih =>
    simp only [List.map_cons, List.nodup_cons] at hnd
    obtain ⟨hp1, hnd'⟩ := hnd
    rcases List.mem_cons.mp hmem with heq | hmem'
    · have hk : k = p.1 := by rw [← heq]
      have hnone : dictGet ps k = none :=
        dictGet_none_of_not_mem (by rw [hk]; exact hp1)
      simp only [dictGet, hnone, if_pos hk.symm]
      rw [← heq]
    · simp only [dictGet, ih hnd' hmem']

/-- A successful rejection-sampling pick is fresh: it is not in `used`. -/
theorem pickCoord_not_mem {r : Rng} {grid : Nat} {used : List Coord}
    {fuel i : Nat} {c : Coord} {j : Nat}
    (h : pickCoord r grid used fuel i = some (c, j)) : c ∉ used := by
  induction fuel generalizing i with
  | zero => cases h
  | succ fuel ih =>
    simp only [pickCoord] at h
    split at h
    · exact ih h
    · next hc =>
      cases h
      exact hc

/-- Structure of a successful `genDsGo` run: ids are `object_id`,
`object_id + 1`, ... in order, every coordinate avoids `used`, and the
coordinates are pairwise distinct. -/
theorem genDsGo_spec {r : Rng} {grid fuel : Nat} :
    ∀ {remaining object_id i : Nat} {used : List Coord} {rows : List Rec},
    genDsGo r grid fuel remaining object_id i used = some rows →
      rows.map Rec.oid = (List.range' object_id remaining).map Int.ofNat
      ∧ (∀ q ∈ rows, q.c ∉ used)
      ∧ (rows.map Rec.c).Nodup := by
  intro remaining
  induction remaining with
  | zero =>
    intro object_id i used rows h
    cases h
    simp
  | succ remaining ih =>
    intro object_id i used rows h
    simp only [genDsGo] at h
    split at h
    · cases h
    · next c i2 hpick =>
      split at h
      · cases h
      · next rest hrest =>
        cases h
        obtain ⟨hoid, hfresh, hnd⟩ := ih hrest
        have hc : c ∉ used := pickCoord_not_mem hpick
        refine ⟨?_, ?_, ?_⟩
        · simp only [List.map_cons, hoid, List.range'_succ]
        · intro q hq
          rcases List.mem_cons.mp hq with rfl | hq'
          · exact hc
          · have := hfresh q hq'
            simp only [List.mem_cons, not_or] at this
            exact this.2
        · simp only [List.map_cons, List.nodup_cons]
          refine ⟨?_, hnd⟩
          intro hmem
          rcases List.mem_map.mp hmem with ⟨q, hq, hqc⟩
          have := hfresh q hq
          simp only [List.mem_cons, not_or] at this
          exact this.1 hqc

/-- Structure of a successful `gen_ds` run: ids are `0..n-1` in order and
the coordinates are pairwise distinct. -/
theorem gen_ds_spec {n grid fuel : Nat} {r : Rng} {rows : List Rec}
    (h : gen_ds n grid r fuel = some rows) :
    rows.map Rec.oid = (List.range n).map Int.ofNat
    ∧ (rows.map Rec.c).Nodup := by
  obtain ⟨hoid, _, hnd⟩ := genDsGo_spec h
  refine ⟨?_, hnd⟩
  rw [hoid, List.range_eq_range']

/-- The ids of a generated dataset are pairwise distinct. -/
theorem gen_ds_oid_nodup {n grid fuel : Nat} {r : Rng} {rows : List Rec}
    (h : gen_ds n grid r fuel = some rows) :
    (rows.map Rec.oid).Nodup := by
  rw [(gen_ds_spec h).1]
  exact (List.nodup_range n).map (fun a b hab => Int.ofNat.inj hab)

/-- Every id in `[0, n)` is the id of some record of a generated dataset. -/
theorem gen_ds_mem_of_lt {n grid fuel : Nat} {r : Rng} {rows : List Rec}
    (h : gen_ds n grid r fuel = some rows) {id : Int}
    (h0 : 0 ≤ id) (hn : id < (n : Int)) :
    ∃ q ∈ rows, q.oid = id := by
  have hmem : id ∈ rows.map Rec.oid := by
    rw [(gen_ds_spec h).1]
    refine List.mem_map.mpr ⟨id.toNat, List.mem_range.mpr (by omega), ?_⟩
    exact Int.toNat_of_nonneg h0
  rcases List.mem_map.mp hmem with ⟨q, hq, hqoid⟩
  exact ⟨q, hq, hqoid⟩

/-- An id outside `[0, n)` is the id of no record of a generated dataset. -/
theorem gen_ds_not_mem_of_out {n grid fuel : Nat} {r : Rng} {rows : List Rec}
    (h : gen_ds n grid r fuel = some rows) {id : Int}
    (hout : id < 0 ∨ (n : Int) ≤ id) :
    id ∉ rows.map Rec.oid := by
  rw [(gen_ds_spec h).1]
  intro hmem
  rcases List.mem_map.mp hmem with ⟨m, hm, hmid⟩
  have hmn : m < n := List.mem_range.mp hm
  have hmid' : (m : Int) = id := hmid
  omega

/-- The keys of `Unified.id_map` are the dataset ids in order. -/
theorem Unified_id_map_keys (ds : List Rec) :
    (Unified.ofDs ds).id_map.map Prod.fst = ds.map Rec.oid := by
  simp [Unified.ofDs, List.map_map, Function.comp]

/-- The keys of `Unified.coord_map` are the dataset coordinates in order. -/
theorem Unified_coord_map_keys (ds : List Rec) :
    (Unified.ofDs ds).coord_map.map Prod.fst = ds.map Rec.c := by
  simp [Unified.ofDs, List.map_map, Function.comp]

/-- The keys of `Split.where_store` are the dataset ids in order. -/
theorem Split_where_keys (ds : List Rec) :
    (Split.ofDs ds).where_store.map Prod.fst = ds.map Rec.oid := by
  simp [Split.ofDs, List.map_map, Function.comp]

/-- The keys of `Split.what` are the dataset ids in order. -/
theorem Split_what_keys (ds : List Rec) :
    (Split.ofDs ds).what.map Prod.fst = ds.map Rec.oid := by
  simp [Split.ofDs, List.map_map, Function.comp]

/-- The keys of `Split.idx` are the dataset coordinates in order. -/
theorem Split_idx_keys (ds : List Rec) :
    (Split.ofDs ds).idx.map Prod.fst = ds.map Rec.c := by
  simp [Split.ofDs, List.map_map, Function.comp]

/-- `id_map` lookup of a record's id returns its `(coordinate, label)`. -/
theorem dictGet_id_map {ds : List Rec} {q : Rec}
    (ho : (ds.map Rec.oid).Nodup) (hq : q ∈ ds) :
    dictGet (Unified.ofDs ds).id_map q.oid = some (q.c, q.f) :=
  dictGet_some_of_nodup (by rw [Unified_id_map_keys]; exact ho)
    (List.mem_map_of_mem (fun q => (q.oid, (q.c, q.f))) hq)

/-- `coord_map` lookup of a record's coordinate returns its `(id, label)`. -/
theorem dictGet_coord_map {ds : List Rec} {q : Rec}
    (hc : (ds.map Rec.c).Nodup) (hq : q ∈ ds) :
    dictGet (Unified.ofDs ds).coord_map q.c = some (q.oid, q.f) :=
  dictGet_some_of_nodup (by rw [Unified_coord_map_keys]; exact hc)
    (List.mem_map_of_mem (fun q => (q.c, (q.oid, q.f))) hq)

/-- `where` lookup of a record's id returns its coordinate. -/
theorem dictGet_where {ds : List Rec} {q : Rec}
    (ho : (ds.map Rec.oid).Nodup) (hq : q ∈ ds) :
    dictGet (Split.ofDs ds).where_store q.oid = some q.c :=
  dictGet_some_of_nodup (by rw [Split_where_keys]; exact ho)
    (List.mem_map_of_mem (fun q => (q.oid, q.c)) hq)

/-- `what` lookup of a record's id returns its label. -/
theorem dictGet_what {ds : List Rec} {q : Rec}
    (ho : (ds.map Rec.oid).Nodup) (hq : q ∈ ds) :
    dictGet (Split.ofDs ds).what q.oid = some q.f :=
  dictGet_some_of_nodup (by rw [Split_what_keys]; exact ho)
    (List.mem_map_of_mem (fun q => (q.oid, q.f)) hq)

/-- `idx` lookup of a record's coordinate returns its id. -/
theorem dictGet_idx {ds : List Rec} {q : Rec}
    (hc : (ds.map Rec.c).Nodup) (hq : q ∈ ds) :
    dictGet (Split.ofDs ds).idx q.c = some q.oid :=
  dictGet_some_of_nodup (by rw [Split_idx_keys]; exact hc)
    (List.mem_map_of_mem (fun q => (q.c, q.oid)) hq)

/-- The instrumented `Split.full_lookup_counted` computes the same result
as `Split.full_lookup` in its first component. -/
theorem Split_full_lookup_counted_fst (s : Split) (oid : Int) :
    (s.full_lookup_counted oid).1 = s.full_lookup oid := by
  unfold Split.full_lookup_counted Split.full_lookup
  rcases h1 : dictGet s.where_store oid with _ | c <;> simp only [h1]
  rcases h2 : dictGet s.what oid with _ | f <;> simp only [h2]
  rcases h3 : dictGet s.idx c with _ | oid2 <;> simp only [h3]
  rcases h4 : dictGet s.what oid2 with _ | g <;> simp only [h4]

/-- The instrumented `Unified.full_lookup_counted` computes the same result
as `Unified.full_lookup` in its first component. -/
theorem Unified_full_lookup_counted_fst (u : Unified) (oid : Int) :
    (u.full_lookup_counted oid).1 = u.full_lookup oid := rfl

/-- If every element maps to a success, the comprehension succeeds. -/
theorem mapExcept_ok {α β : Type} (g : α → Except PyErr β) (l : List α)
    (h : ∀ a ∈ l, ∃ b, g a = .ok b) : ∃ bs, mapExcept g l = .ok bs := by
  induction l with
  | nil => exact ⟨[], rfl⟩
  | cons a l ih =>
    obtain ⟨b, hb⟩ := h a (List.mem_cons_self a l)
    obtain ⟨bs, hbs⟩ := ih (fun x hx => h x (List.mem_cons_of_mem a hx))
    exact ⟨b :: bs, by simp only [mapExcept, hb, hbs]⟩

/-- C1: Round-trip invariant: for every dataset returned by `gen_ds` and
every id in `[0, n)`, both store variants satisfy
`coord_to_oid (oid_to_coord id) = id`. -/
theorem c1_round_trip {n grid fuel : Nat} {r : Rng} {rows : List Rec}
    (h : gen_ds n grid r fuel = some rows) {id : Int}
    (h0 : 0 ≤ id) (hn : id < (n : Int)) :
    ((Unified.ofDs rows).oid_to_coord id).bind (Unified.ofDs rows).coord_to_oid
      = Except.ok id
    ∧ ((Split.ofDs rows).oid_to_coord id).bind (Split.ofDs rows).coord_to_oid
      = Except.ok id := by
  obtain ⟨q, hq, rfl⟩ := gen_ds_mem_of_lt h h0 hn
  have ho := gen_ds_oid_nodup h
  have hc := (gen_ds_spec h).2
  constructor
  · simp only [Unified.oid_to_coord, dictGet_id_map ho hq, Except.bind,
      Unified.coord_to_oid, dictGet_coord_map hc hq]
  · simp only [Split.oid_to_coord, dictGet_where ho hq, Except.bind,
      Split.coord_to_oid, dictGet_idx hc hq]

/-- C2: Cross-layout equivalence: for every dataset returned by `gen_ds`
and every id in `[0, n)`, `Unified.full_lookup` and `Split.full_lookup`
return the identical `(location, label)` pair. -/
theorem c2_cross_layout {n grid fuel : Nat} {r : Rng} {rows : List Rec}
    (h : gen_ds n grid r fuel = some rows) {id : Int}
    (h0 : 0 ≤ id) (hn : id < (n : Int)) :
    ∃ c f, (Unified.ofDs rows).full_lookup id = Except.ok (c, f)
      ∧ (Split.ofDs rows).full_lookup id = Except.ok (c, f) := by
  obtain ⟨q, hq, rfl⟩ := gen_ds_mem_of_lt h h0 hn
  have ho := gen_ds_oid_nodup h
  have hc := (gen_ds_spec h).2
  refine ⟨q.c, q.f, ?_, ?_⟩
  · simp only [Unified.full_lookup, dictGet_id_map ho hq]
  · simp only [Split.full_lookup, dictGet_where ho hq, dictGet_what ho hq,
      dictGet_idx hc hq]

/-- C3: Uniqueness invariant: whenever `gen_ds n grid rng` returns a record
list (with `n ≤ (grid+1)^2` so rejection sampling can terminate), its `n`
coordinates are pairwise distinct. -/
theorem c3_unique_coords {n grid fuel : Nat} {r : Rng} {rows : List Rec}
    (hcap : n ≤ (grid + 1) ^ 2) (h : gen_ds n grid r fuel = some rows) :
    (rows.map Rec.c).Nodup ∧ rows.length = n := by
  refine ⟨(gen_ds_spec h).2, ?_⟩
  have hlen := congrArg List.length (gen_ds_spec h).1
  simpa using hlen

/-- C4: SplitStore extra-cost property: on a combined-type query for a
valid id, `Unified.full_lookup` performs exactly one underlying dict
access while `Split.full_lookup` performs at least 2, strictly more than
`Unified` (the count is in fact 4: `where`, `what`, `idx`, and the
integrity-check `what`). -/
theorem c4_access_counts {n grid fuel : Nat} {r : Rng} {rows : List Rec}
    (h : gen_ds n grid r fuel = some rows) {id : Int}
    (h0 : 0 ≤ id) (hn : id < (n : Int)) :
    ((Unified.ofDs rows).full_lookup_counted id).2 = 1
    ∧ 2 ≤ ((Split.ofDs rows).full_lookup_counted id).2
    ∧ ((Unified.ofDs rows).full_lookup_counted id).2
        < ((Split.ofDs rows).full_lookup_counted id).2 := by
  obtain ⟨q, hq, rfl⟩ := gen_ds_mem_of_lt h h0 hn
  have ho := gen_ds_oid_nodup h
  have hc := (gen_ds_spec h).2
  have hu : ((Unified.ofDs rows).full_lookup_counted q.oid).2 = 1 := rfl
  have hs : ((Split.ofDs rows).full_lookup_counted q.oid).2 = 4 := by
    simp only [Split.full_lookup_counted, dictGet_where ho hq,
      dictGet_what ho hq, dictGet_idx hc hq]
  refine ⟨hu, ?_, ?_⟩
  · rw [hs]
    decide
  · rw [hu, hs]
    decide

/-- C9: Implicit totality of `Split.full_lookup`: on a dataset with
pairwise-distinct coordinates and pairwise-distinct ids (as holds for any
`gen_ds` output), the reverse-index lookup `idx[where[id]]` returns `id`
itself, so `full_lookup` of a record's id never raises. -/
theorem c9_split_full_lookup_total {ds : List Rec}
    (hc : (ds.map Rec.c).Nodup) (ho : (ds.map Rec.oid).Nodup)
    {q : Rec} (hq : q ∈ ds) :
    dictGet (Split.ofDs ds).idx q.c = some q.oid
    ∧ (Split.ofDs ds).full_lookup q.oid = Except.ok (q.c, q.f) := by
  refine ⟨dictGet_idx hc hq, ?_⟩
  simp only [Split.full_lookup, dictGet_where ho hq, dictGet_what ho hq,
    dictGet_idx hc hq]

/-- C5: Query classification order: one iteration of `run` is classified
from the draw `r` as a location-to-id query iff `r < w2what`, as an
id-to-location query iff `w2what ≤ r < w2what + what2w`, and as a
combined query otherwise, the boundaries being checked in that fixed
order. -/
theorem c5_classification (mix : Mix) (r : Rat) :
    (queryKind mix r = QueryKind.locationToId ↔ r < mix.w2what)
    ∧ (queryKind mix r = QueryKind.idToLocation
        ↔ mix.w2what ≤ r ∧ r < mix.w2what + mix.what2w)
    ∧ (queryKind mix r = QueryKind.combined
        ↔ mix.w2what ≤ r ∧ mix.w2what + mix.what2w ≤ r) := by
  unfold queryKind
  by_cases h1 : r < mix.w2what
  · rw [if_pos h1]
    refine ⟨⟨fun _ => h1, fun _ => rfl⟩, ?_, ?_⟩
    · exact ⟨fun hk => QueryKind.noConfusion hk,
        fun hc => absurd h1 (not_lt.mpr hc.1)⟩
    · exact ⟨fun hk => QueryKind.noConfusion hk,
        fun hc => absurd h1 (not_lt.mpr hc.1)⟩
  · rw [if_neg h1]
    by_cases h2 : r < mix.w2what + mix.what2w
    · rw [if_pos h2]
      refine ⟨?_, ?_, ?_⟩
      · exact ⟨fun hk => QueryKind.noConfusion hk, fun hr => absurd hr h1⟩
      · exact ⟨fun _ => ⟨not_lt.mp h1, h2⟩, fun _ => rfl⟩
      · exact ⟨fun hk => QueryKind.noConfusion hk,
          fun hc => absurd h2 (not_lt.mpr hc.2)⟩
    · rw [if_neg h2]
      refine ⟨?_, ?_, ?_⟩
      · exact ⟨fun hk => QueryKind.noConfusion hk, fun hr => absurd hr h1⟩
      · exact ⟨fun hk => QueryKind.noConfusion hk,
          fun hc => absurd hc.2 h2⟩
      · exact ⟨fun _ => ⟨not_lt.mp h1, not_lt.mp h2⟩, fun _ => rfl⟩

/-- C6: NotFound behavior: for a store built from a generated dataset of
`n` records, `oid_to_coord` on an id outside `[0, n)` and `coord_to_oid`
on a coordinate not used by any record both raise `KeyError`, for both
layouts. -/
theorem c6_not_found {n grid fuel : Nat} {r : Rng} {rows : List Rec}
    (h : gen_ds n grid r fuel = some rows) :
    (∀ id : Int, id < 0 ∨ (n : Int) ≤ id →
      (Unified.ofDs rows).oid_to_coord id = Except.error PyErr.keyError
      ∧ (Split.ofDs rows).oid_to_coord id = Except.error PyErr.keyError)
    ∧ (∀ c : Coord, c ∉ rows.map Rec.c →
      (Unified.ofDs rows).coord_to_oid c = Except.error PyErr.keyError
      ∧ (Split.ofDs rows).coord_to_oid c = Except.error PyErr.keyError) := by
  constructor
  · intro id hout
    have hid : id ∉ rows.map Rec.oid := gen_ds_not_mem_of_out h hout
    constructor
    · have hnone : dictGet (Unified.ofDs rows).id_map id = none :=
        dictGet_none_of_not_mem (by rw [Unified_id_map_keys]; exact hid)
      simp only [Unified.oid_to_coord, hnone]
    · have hnone : dictGet (Split.ofDs rows).where_store id = none :=
        dictGet_none_of_not_mem (by rw [Split_where_keys]; exact hid)
      simp only [Split.oid_to_coord, hnone]
  · intro c hcm
    constructor
    · have hnone : dictGet (Unified.ofDs rows).coord_map c = none :=
        dictGet_none_of_not_mem (by rw [Unified_coord_map_keys]; exact hcm)
      simp only [Unified.coord_to_oid, hnone]
    · have hnone : dictGet (Split.ofDs rows).idx c = none :=
        dictGet_none_of_not_mem (by rw [Split_idx_keys]; exact hcm)
      simp only [Split.coord_to_oid, hnone]

/-- C7: Determinism of generation: `gen_ds` consults nothing but its
arguments and the seeded draw stream, so two calls whose streams agree
pointwise (in particular, two `random.Random` objects built from the same
seed) produce identical record sequences. -/
theorem c7_determinism (n grid fuel : Nat) (r1 r2 : Rng)
    (hr : ∀ i, r1 i = r2 i) :
    gen_ds n grid r1 fuel = gen_ds n grid r2 fuel := by
  have hfun : r1 = r2 := funext hr
  rw [hfun]

/-- The Python `len` of the unified store's `id_map` is `n` for a
generated dataset. -/
theorem Mem_size_unified {n grid fuel : Nat} {r : Rng} {rows : List Rec}
    (h : gen_ds n grid r fuel = some rows) :
    (Mem.unified (Unified.ofDs rows)).size = n := by
  simp only [Mem.size, dictLen, Unified_id_map_keys, (gen_ds_spec h).1]
  rw [List.dedup_eq_self.mpr
    ((List.nodup_range n).map (fun a b hab => Int.ofNat.inj hab))]
  simp

/-- The Python `len` of the split store's `where` table is `n` for a
generated dataset. -/
theorem Mem_size_split {n grid fuel : Nat} {r : Rng} {rows : List Rec}
    (h : gen_ds n grid r fuel = some rows) :
    (Mem.split (Split.ofDs rows)).size = n := by
  simp only [Mem.size, dictLen, Split_where_keys, (gen_ds_spec h).1]
  rw [List.dedup_eq_self.mpr
    ((List.nodup_range n).map (fun a b hab => Int.ofNat.inj hab))]
  simp

/-- `oid_to_coord` succeeds on every id of `[0, n)` for both layouts. -/
theorem gen_ds_oid_to_coord_ok {n grid fuel : Nat} {r : Rng} {rows : List Rec}
    (h : gen_ds n grid r fuel = some rows) {id : Int}
    (h0 : 0 ≤ id) (hn : id < (n : Int)) :
    ∃ c, (Unified.ofDs rows).oid_to_coord id = Except.ok c
      ∧ (Split.ofDs rows).oid_to_coord id = Except.ok c := by
  obtain ⟨q, hq, rfl⟩ := gen_ds_mem_of_lt h h0 hn
  have ho := gen_ds_oid_nodup h
  refine ⟨q.c, ?_, ?_⟩
  · simp only [Unified.oid_to_coord, dictGet_id_map ho hq]
  · simp only [Split.oid_to_coord, dictGet_where ho hq]

/-- The precomputation `[mem.oid_to_coord(i) for i in ids]` of `run`
succeeds on a store built from a generated dataset. -/
theorem run_precompute_ok {n grid fuel : Nat} {r : Rng} {rows : List Rec}
    (h : gen_ds n grid r fuel = some rows) (mem : Mem)
    (hmem : mem = Mem.unified (Unified.ofDs rows) ∨ mem = Mem.split (Split.ofDs rows)) :
    ∃ cs, mapExcept (fun i => mem.oid_to_coord i)
      ((List.range n).map Int.ofNat) = Except.ok cs := by
  apply mapExcept_ok
  intro a ha
  rcases List.mem_map.mp ha with ⟨m, hm, rfl⟩
  have hmn : m < n := List.mem_range.mp hm
  have h0 : (0 : Int) ≤ Int.ofNat m := Int.ofNat_nonneg m
  have hn : (Int.ofNat m : Int) < (n : Int) := Int.ofNat_lt.mpr hmn
  obtain ⟨c, hcu, hcs⟩ := gen_ds_oid_to_coord_ok h h0 hn
  rcases hmem with rfl | rfl
  · exact ⟨c, hcu⟩
  · exact ⟨c, hcs⟩

/-- C10: Zero-query edge case: with `total_queries = 0`, `run` on a store
built from a generated dataset reaches the final expression
`acc / total_queries / 1000` with an empty query loop and raises
`ZeroDivisionError` instead of returning a latency. -/
theorem c10_zero_queries {n grid fuel : Nat} {r : Rng} {rows : List Rec}
    (h : gen_ds n grid r fuel = some rows) (mix : Mix)
    (rfloat : Nat → Rat) (rchoice : Nat → Nat) (elapsed : Nat → Nat) :
    run (Mem.unified (Unified.ofDs rows)) 0 mix rfloat rchoice elapsed
      = Except.error PyErr.zeroDivisionError
    ∧ run (Mem.split (Split.ofDs rows)) 0 mix rfloat rchoice elapsed
      = Except.error PyErr.zeroDivisionError := by
  constructor
  · obtain ⟨cs, hcs⟩ := run_precompute_ok h _ (Or.inl rfl)
    simp only [run, Mem_size_unified h, hcs, runLoop, if_true]
  · obtain ⟨cs, hcs⟩ := run_precompute_ok h _ (Or.inr rfl)
    simp only [run, Mem_size_split h, hcs, runLoop, if_true]

/-- Witness for C1 at the concrete dataset `gen_ds 3 4 wStream 10` and id 1. -/
theorem c1_witness :
    gen_ds 3 4 wStream 10 = some wRows
    ∧ (((Unified.ofDs wRows).oid_to_coord 1).bind (Unified.ofDs wRows).coord_to_oid
        = Except.ok 1
      ∧ ((Split.ofDs wRows).oid_to_coord 1).bind (Split.ofDs wRows).coord_to_oid
        = Except.ok 1) :=
  ⟨rfl, c1_round_trip (show gen_ds 3 4 wStream 10 = some wRows from rfl)
    (show (0 : Int) ≤ 1 by decide) (show (1 : Int) < ((3 : Nat) : Int) by decide)⟩

/-- Witness for C2 at the concrete dataset `gen_ds 3 4 wStream 10` and id 0. -/
theorem c2_witness :
    gen_ds 3 4 wStream 10 = some wRows
    ∧ ∃ c f, (Unified.ofDs wRows).full_lookup 0 = Except.ok (c, f)
      ∧ (Split.ofDs wRows).full_lookup 0 = Except.ok (c, f) :=
  ⟨rfl, c2_cross_layout (show gen_ds 3 4 wStream 10 = some wRows from rfl)
    (show (0 : Int) ≤ 0 by decide) (show (0 : Int) < ((3 : Nat) : Int) by decide)⟩

/-- Witness for C3 at the concrete dataset `gen_ds 3 4 wStream 10`. -/
theorem c3_witness :
    3 ≤ (4 + 1) ^ 2 ∧ gen_ds 3 4 wStream 10 = some wRows
    ∧ ((wRows.map Rec.c).Nodup ∧ wRows.length = 3) :=
  ⟨by decide, rfl, c3_unique_coords (by decide)
    (show gen_ds 3 4 wStream 10 = some wRows from rfl)⟩

/-- Witness for C4 at the concrete dataset `gen_ds 3 4 wStream 10` and id 2. -/
theorem c4_witness :
    gen_ds 3 4 wStream 10 = some wRows
    ∧ (((Unified.ofDs wRows).full_lookup_counted 2).2 = 1
      ∧ 2 ≤ ((Split.ofDs wRows).full_lookup_counted 2).2
      ∧ ((Unified.ofDs wRows).full_lookup_counted 2).2
          < ((Split.ofDs wRows).full_lookup_counted 2).2) :=
  ⟨rfl, c4_access_counts (show gen_ds 3 4 wStream 10 = some wRows from rfl)
    (show (0 : Int) ≤ 2 by decide) (show (2 : Int) < ((3 : Nat) : Int) by decide)⟩

/-- Witness for C6 at the concrete dataset `gen_ds 3 4 wStream 10`, the
out-of-range id 5 and the unused coordinate `(1, 1)`. -/
theorem c6_witness :
    gen_ds 3 4 wStream 10 = some wRows
    ∧ ((Unified.ofDs wRows).oid_to_coord 5 = Except.error PyErr.keyError
      ∧ (Split.ofDs wRows).oid_to_coord 5 = Except.error PyErr.keyError)
    ∧ ((Unified.ofDs wRows).coord_to_oid (1, 1) = Except.error PyErr.keyError
      ∧ (Split.ofDs wRows).coord_to_oid (1, 1) = Except.error PyErr.keyError) :=
  ⟨rfl,
    (c6_not_found (show gen_ds 3 4 wStream 10 = some wRows from rfl)).1 5
      (by decide),
    (c6_not_found (show gen_ds 3 4 wStream 10 = some wRows from rfl)).2 (1, 1)
      (by decide)⟩

/-- Witness for C7: two definitionally different but pointwise equal draw
streams generate the same dataset. -/
theorem c7_witness :
    gen_ds 3 4 wStream 10 = gen_ds 3 4 wStream2 10 :=
  c7_determinism 3 4 10 wStream wStream2 (fun _ => rfl)

/-- Witness for C9 at the concrete dataset `gen_ds 3 4 wStream 10` and its
first record. -/
theorem c9_witness :
    ((wRows.map Rec.c).Nodup ∧ (wRows.map Rec.oid).Nodup
      ∧ (⟨0, (0, 1), label 0⟩ : Rec) ∈ wRows)
    ∧ (dictGet (Split.ofDs wRows).idx (0, 1) = some 0
      ∧ (Split.ofDs wRows).full_lookup 0 = Except.ok ((0, 1), label 0)) :=
  ⟨⟨by decide, by decide, by decide⟩,
    @c9_split_full_lookup_total wRows (by decide) (by decide)
      ⟨0, (0, 1), label 0⟩ (by decide)⟩

/-- Witness for C10 at the concrete dataset `gen_ds 3 4 wStream 10` with a
canonical mix and constant oracle streams. -/
theorem c10_witness :
    gen_ds 3 4 wStream 10 = some wRows
    ∧ run (Mem.unified (Unified.ofDs wRows)) 0 ⟨2/5, 2/5, 1/5⟩
        (fun _ => 0) (fun _ => 0) (fun _ => 0)
        = Except.error PyErr.zeroDivisionError
    ∧ run (Mem.split (Split.ofDs wRows)) 0 ⟨2/5, 2/5, 1/5⟩
        (fun _ => 0) (fun _ => 0) (fun _ => 0)
        = Except.error PyErr.zeroDivisionError :=
  ⟨rfl,
    (c10_zero_queries (show gen_ds 3 4 wStream 10 = some wRows from rfl)
      ⟨2/5, 2/5, 1/5⟩ (fun _ => 0) (fun _ => 0) (fun _ => 0)).1,
    (c10_zero_queries (show gen_ds 3 4 wStream 10 = some wRows from rfl)
      ⟨2/5, 2/5, 1/5⟩ (fun _ => 0) (fun _ => 0) (fun _ => 0)).2⟩
